import Mathlib

/-!
# matterbar: the Rollbar webhook handler (`server/http.go`)

A shallow embedding of `ServeHTTP` / `handleWebhook` and of the helpers it
calls, followed by the properties of the handler.

Conventions of the embedding.

* The handler is a function from the request, the configuration and the
  collaborators to an `Outcome`: what was written to the response writer, the
  posts handed to `CreatePost` (in call order) and whether the goroutine
  panicked on a nil dereference.
* `http.Error(w, msg, code)` is recorded as `Response.mk code msg`; a handler
  that returns without writing leaves `response = none` (net/http then sends
  an implicit 200 with an empty body).
* Calls to `LogWarn` / `LogError` have no effect on the response or on the
  posts and are left out.
* Go `string`s are Lean `String`s, except the two strings the handler converts
  to `[]byte` for the authentication compare: those are kept as byte lists.
* Go `int` values are `Int`; `strconv.Itoa` and the `%d` verb are `toString`.
-/

namespace Matterbar

/-! ## Constants and tables (http.go 16-30) -/

/-- Source: http.go:17. -/
def postFallbackMaxLength : Nat := 500

/-- Source: http.go:18. -/
def postTextMaxLength : Nat := 500

/-- Source: http.go:21-30, the colour table; a Go map lookup of a missing key yields
the zero value `""`. -/
def EventToColor (eventName : String) : String :=
  if eventName = "new_item" then "#ff0000"
  else if eventName = "occurrence" then "#ff0000"
  else if eventName = "reactivated_item" then "#ffff00"
  else if eventName = "exp_repeat_item" then "#800080"
  else if eventName = "item_velocity" then "#ffa500"
  else if eventName = "reopened_item" then "#add8e6"
  else if eventName = "resolved_item" then "#00ff00"
  else if eventName = "deploy" then "#4bc6b9"
  else ""

/-! ## crypto/subtle (Go standard library) -/

/-- A Go `[]byte`. -/
abbrev Bytes := List (Fin 256)

/-- Go `subtle.ConstantTimeByteEq(x, y uint8) int`:
`int((uint32(x^y) - 1) >> 31)`, the subtraction wrapping modulo `2^32`. -/
def ConstantTimeByteEq (x y : Fin 256) : Int :=
  Int.ofNat ((((x.val ^^^ y.val) + 2 ^ 32 - 1) % 2 ^ 32) >>> 31)

/-- The accumulation loop of `subtle.ConstantTimeCompare`:
`v |= x[i] ^ y[i]` for every index. -/
def xorFold : Fin 256 → Bytes → Bytes → Fin 256
  | v, a :: x, b :: y => xorFold (v ||| (a ^^^ b)) x y
  | v, _, _ => v

/-- Go `subtle.ConstantTimeCompare(x, y []byte) int`: `0` at once when the
lengths differ, else the byte-equality of the accumulated xor with `0`. -/
def ConstantTimeCompare (x y : Bytes) : Int :=
  if x.length ≠ y.length then 0
  else ConstantTimeByteEq (xorFold 0 x y) 0

/-! ## Payload model

The type declarations of the payload are not in `http.go`; the records below
carry the fields `http.go` reads. -/

/-- Modelled from the spec: the `LastOccurrence` record (spec section 3,
"Occurrence summary"); `http.go` reads `Language` and `UUID`. -/
structure LastOccurrence where
  Language : String
  UUID : String
  deriving DecidableEq, Repr

/-- Modelled from the spec: the item of an item-class payload; the fields are
the ones `http.go` reads (lines 128, 174, 179, 211, 213, 290). `LastOccurrence`
is a pointer in the source (it is compared with `nil` at line 292). -/
structure Item where
  ProjectID : Int
  Environment : String
  LastOccurrenceTimestamp : Int
  Counter : Int
  Title : String
  LastOccurrence : Option LastOccurrence
  deriving DecidableEq, Repr

/-- Modelled from the spec: the deploy record; the fields are the ones
`http.go` reads (lines 241, 247, 254). -/
structure Deploy where
  ID : Int
  Environment : String
  Revision : String
  deriving DecidableEq, Repr

/-- Modelled from the spec: the `data` member of a notification. `Occurrence`
is a pointer in the source (assigned to the nil-checked `lastOccurrence` at
line 293); `Item` and `Deploy` are read without a nil check on every path and
are kept as values. -/
structure Data where
  Item : Item
  Occurrence : Option LastOccurrence
  Deploy : Deploy
  URL : String
  Message : String
  deriving DecidableEq, Repr

/-- Modelled from the spec: the decoded notification. -/
structure Rollbar where
  EventName : String
  Data : Data
  deriving DecidableEq, Repr

/-- Modelled from the spec: the set of supported event kinds (spec section 3,
`event_name`). -/
def supportedEvents : List String :=
  ["new_item", "occurrence", "reactivated_item", "exp_repeat_item",
   "resolved_item", "reopened_item", "item_velocity", "deploy", "test"]

/-- Modelled from the spec: the validator `Rollbar.isValid` (spec section 4.1).
Rules checked in order, first failure wins: an empty `event_name` gives
"Missing rollbar.event_name", an `event_name` outside the supported set gives
"Unsupported rollbar.event_name", anything else gives `""` (valid). -/
def isValid (rollbar : Rollbar) : String :=
  if rollbar.EventName = "" then "Missing rollbar.event_name"
  else if rollbar.EventName ∉ supportedEvents then "Unsupported rollbar.event_name"
  else ""

/-- Modelled from the spec: `TruncateString` (spec sections 4.2 and 8): a
string of at most `num` characters is returned unchanged, a longer one is cut
to its first `num` characters and an ellipsis is appended. -/
def TruncateString (str : String) (num : Nat) : String :=
  if str.length ≤ num then str
  else String.mk (str.data.take num) ++ "..."

/-! ## Outgoing message (mattermost `model` package) -/

/-- The `model.SlackAttachmentField` members the handler sets. -/
structure SlackAttachmentField where
  Short : Bool
  Title : String
  Value : String
  deriving DecidableEq, Repr

/-- The `model.SlackAttachment` members the handler sets; a member the handler
does not set keeps the zero value `""`. -/
structure SlackAttachment where
  Color : String := ""
  Fallback : String := ""
  Title : String := ""
  TitleLink : String := ""
  Text : String := ""
  Pretext : String := ""
  Fields : List SlackAttachmentField := []
  deriving DecidableEq, Repr

/-- The `model.Post` members the handler sets (`PostType` is the member `Type`,
a reserved word here); `attachments` is the value of `Props["attachments"]`. -/
structure Post where
  ChannelId : String
  UserId : String
  PostType : String := ""
  Message : String := ""
  attachments : List SlackAttachment := []
  deriving DecidableEq, Repr

/-- The constant `model.POST_SLACK_ATTACHMENT`. -/
def POST_SLACK_ATTACHMENT : String := "slack_attachment"

/-! ## Request, configuration and collaborators -/

/-- The parts of `*http.Request` the handler reads; `auth`, `team` and
`channel` are `r.URL.Query().Get(...)` (empty when the parameter is absent). -/
structure Request where
  Path : String
  Method : String
  auth : Bytes
  team : String
  channel : String
  Body : String

/-- The configuration members the handler reads, and the bot user id. -/
structure Configuration where
  Secret : Bytes
  teamId : String
  channelId : String
  RollbarApiKey : String
  botUserID : String

/-- The result of `client.Do`: the status code and what `ioutil.ReadAll` of the
body returns. -/
structure HttpResponse where
  StatusCode : Nat
  Body : Except String String

/-- The `ProjectData` members the handler reads: `Result.Name` and
`Result.SettingsData.Timezone`. -/
structure ProjectData where
  Name : String
  Timezone : String

/-- The collaborators of the handler: the plugin API, the standard-library
calls that do I/O or decoding, and the helpers of the repository that are
defined outside `http.go`. Every property below holds for all of them. -/
structure Collaborators where
  /-- Go `p.API.GetTeamByName`: the team id, `none` for a nil team. -/
  GetTeamByName : String → Option String
  /-- Go `p.API.GetChannelByName(teamId, name, false)`: the channel id. -/
  GetChannelByName : String → String → Option String
  /-- Go `json.NewDecoder(r.Body).Decode(&rollbar)`. -/
  Decode : String → Except String Rollbar
  /-- Go `http.NewRequest("GET", url, nil)`: `some err` on failure. -/
  NewRequest : String → Option String
  /-- Go `client.Do(req)` for the url and the access-token header. -/
  Do : String → String → Except String HttpResponse
  /-- Go `json.Unmarshal(responseData, &projectData)`. -/
  UnmarshalProject : String → Except String ProjectData
  /-- Go `p.API.KVGet(channelId)`: the bytes returned (the error is only logged). -/
  KVGet : String → String
  /-- Go `json.Unmarshal(usersToNotify, &usersMap)`: the map afterwards (the error
  is only logged). -/
  UnmarshalUsers : String → List (String × Bool)
  /-- Go `GetUsernameList(usersMap)`. -/
  GetUsernameList : List (String × Bool) → String
  /-- Go `rollbar.eventNameToTitle()`. -/
  eventNameToTitle : Rollbar → String
  /-- Go `rollbar.eventText()`. -/
  eventText : Rollbar → String
  /-- Go `rollbar.deployDateTime()`. -/
  deployDateTime : Rollbar → String
  /-- Go `rollbar.deployUser()`. -/
  deployUser : Rollbar → String
  /-- Go `time.LoadLocation(timezone)` followed, on success, by
  `time.Unix(ts, 0).In(zone).Format(time.ANSIC)`; `none` when the location
  does not load. -/
  FormatInZone : String → Int → Option String
  /-- Go `p.API.CreatePost(post)`: `some err` on failure. -/
  CreatePost : Post → Option String

/-- What the handler wrote with `http.Error`. -/
structure Response where
  status : Nat
  body : String
  deriving DecidableEq, Repr

/-- The observable result of one request. -/
structure Outcome where
  /-- Go `none`: nothing was written. -/
  response : Option Response
  /-- The posts passed to `CreatePost`, in call order. -/
  posts : List Post
  /-- The handler dereferenced a nil pointer. -/
  panicked : Bool
  deriving DecidableEq, Repr

/-- The call `http.Error(w, msg, code); return` before any post. -/
def httpError (msg : String) (code : Nat) : Outcome :=
  { response := some ⟨code, msg⟩, posts := [], panicked := false }

/-- A nil-pointer dereference before any write or post. -/
def nilPanic : Outcome :=
  { response := none, posts := [], panicked := true }

/-- The tail shared by the four paths (http.go 235-239, 271-275, 282-286,
359-363): `CreatePost`, and `http.Error(w, err.Error(), 500)` on failure. -/
def createPost (api : Collaborators) (post : Post) : Outcome :=
  match api.CreatePost post with
  | some err => { response := some ⟨500, err⟩, posts := [post], panicked := false }
  | none => { response := none, posts := [post], panicked := false }

/-! ## The handler (http.go 32-364) -/

/-- Source: http.go 121-155, the best-effort project lookup: the pair
`(projectTitle, timezone)`. Both stay `""` unless an API key is configured and
building the request, sending it, reading the body and unmarshalling it all
succeed. The status code of the response is not read. -/
def fetchProject (api : Collaborators) (configuration : Configuration)
    (rollbar : Rollbar) : String × String :=
  if configuration.RollbarApiKey ≠ "" then
    let rollbarURL :=
      "https://api.rollbar.com/api/1/project/" ++ toString rollbar.Data.Item.ProjectID
    match api.NewRequest rollbarURL with
    | some _ => ("", "")
    | none =>
      match api.Do rollbarURL configuration.RollbarApiKey with
      | .error _ => ("", "")
      | .ok response =>
        match response.Body with
        | .error _ => ("", "")
        | .ok responseData =>
          match api.UnmarshalProject responseData with
          | .error _ => ("", "")
          | .ok projectData => (projectData.Name, projectData.Timezone)
  else ("", "")

/-- Source: http.go 157-166, the subscriber map of the channel: unmarshalled
from the stored bytes when there are any, else empty. -/
def usersMap (api : Collaborators) (channelId : String) : List (String × Bool) :=
  let usersToNotify := api.KVGet channelId
  if usersToNotify.utf8ByteSize > 0 then api.UnmarshalUsers usersToNotify else []

/-- Source: http.go 222-224, 258-260, 346-348: `attachment.Pretext` is assigned
only when the mention list is not the sentinel. -/
def withPretext (attachment : SlackAttachment) (pretext : String) : SlackAttachment :=
  if pretext ≠ "None" then { attachment with Pretext := pretext } else attachment

/-- Source: http.go 226-233, 262-269, 350-357: the post around one attachment. -/
def attachmentPost (configuration : Configuration) (channelId : String)
    (attachment : SlackAttachment) : Post :=
  { ChannelId := channelId, UserId := configuration.botUserID,
    PostType := POST_SLACK_ATTACHMENT, attachments := [attachment] }

/-- Source: http.go 176-186, the "Last Occurrence" value. -/
def lastOccurrenceTime (api : Collaborators) (timezone : String) (rollbar : Rollbar) : String :=
  if timezone ≠ "" then
    match api.FormatInZone timezone rollbar.Data.Item.LastOccurrenceTimestamp with
    | none => ""
    | some formatted => formatted
  else ""

/-- Source: http.go 172-224, the attachment of an `item_velocity` event. -/
def velocityAttachment (api : Collaborators) (projectTitle timezone pretext : String)
    (rollbar : Rollbar) : SlackAttachment :=
  let environment := rollbar.Data.Item.Environment
  let fields : List SlackAttachmentField :=
    [ ⟨true, "Project", projectTitle⟩,
      ⟨true, "Last Occurrence", lastOccurrenceTime api timezone rollbar⟩,
      ⟨true, "Environment", environment⟩,
      ⟨true, "Links", "[Occurrences](" ++ rollbar.Data.URL ++ ")"⟩ ]
  let title := "#" ++ toString rollbar.Data.Item.Counter ++ " " ++ api.eventNameToTitle rollbar ++ ":"
  let text := rollbar.Data.Item.Title
  withPretext
    { Color := EventToColor rollbar.EventName,
      Fallback := title,
      Title := title ++ "    " ++ TruncateString text postTextMaxLength,
      Fields := fields,
      TitleLink := rollbar.Data.URL } pretext

/-- Source: http.go 241-248, the text of a `deploy` event. -/
def deployText (api : Collaborators) (rollbar : Rollbar) : String :=
  "\x60" ++ api.deployDateTime rollbar ++ "\x60 **" ++ api.deployUser rollbar
    ++ "** deployed \x60" ++ rollbar.Data.Deploy.Environment
    ++ "\x60 revision \x60" ++ rollbar.Data.Deploy.Revision ++ "\x60"

/-- Source: http.go 240-260, the attachment of a `deploy` event. -/
def deployAttachment (api : Collaborators) (pretext : String) (rollbar : Rollbar) :
    SlackAttachment :=
  let title := api.eventNameToTitle rollbar
  let environment := rollbar.Data.Deploy.Environment
  let text := deployText api rollbar
  let fallback := "[" ++ title ++ "] " ++ environment ++ " - " ++ text
  withPretext
    { Color := EventToColor rollbar.EventName,
      Fallback := fallback,
      Title := title,
      TitleLink := "https://rollbar.com/deploy/" ++ toString rollbar.Data.Deploy.ID ++ "/",
      Text := text } pretext

/-- Source: http.go 277-281, the plain post of a `test` event. -/
def testPost (configuration : Configuration) (channelId : String) (rollbar : Rollbar) : Post :=
  { ChannelId := channelId, UserId := configuration.botUserID,
    Message := rollbar.Data.Message }

/-- Source: http.go 290-294: `item.last_occurrence`, and the standalone
`occurrence` when that is nil. -/
def pickOccurrence (rollbar : Rollbar) : Option LastOccurrence :=
  match rollbar.Data.Item.LastOccurrence with
  | some occ => some occ
  | none => rollbar.Data.Occurrence

/-- Source: http.go 304-308: the event text, replaced by a fixed sentence when
empty. -/
def displayText (api : Collaborators) (rollbar : Rollbar) : String :=
  if api.eventText rollbar = "" then
    "No exception message found in Rollbar webhook. Check mattermost server logs for more info."
  else api.eventText rollbar

/-- Source: http.go 295-348, the attachment of an item-class event, given the
occurrence record `lastOccurrence` points to. -/
def itemAttachment (api : Collaborators) (projectTitle pretext : String)
    (rollbar : Rollbar) (lastOccurrence : LastOccurrence) : SlackAttachment :=
  let environment := rollbar.Data.Item.Environment
  let language := lastOccurrence.Language
  let itemLink := "https://rollbar.com/item/uuid/?uuid=" ++ lastOccurrence.UUID
  let occurrenceLink := "https://rollbar.com/occurrence/uuid/?uuid=" ++ lastOccurrence.UUID
  let eventText := displayText api rollbar
  let title := api.eventNameToTitle rollbar
  let fallback := "[" ++ environment ++ "] " ++ title ++ " - "
    ++ TruncateString eventText postFallbackMaxLength
  let fields : List SlackAttachmentField :=
    [ ⟨true, "Project", projectTitle⟩,
      ⟨true, "Environment", environment⟩,
      ⟨true, "Language", language⟩,
      ⟨true, "Links", "[Item](" ++ itemLink ++ ") | [Occurrence](" ++ occurrenceLink ++ ")"⟩ ]
  let title := "#" ++ toString rollbar.Data.Item.Counter ++ " " ++ title ++ ":"
  withPretext
    { Color := EventToColor rollbar.EventName,
      Fallback := fallback,
      Fields := fields,
      Title := title ++ "  " ++ TruncateString eventText postTextMaxLength,
      TitleLink := itemLink } pretext

/-- Source: http.go 121-364, the handler after validation: enrichment, dispatch
on the event name, one `CreatePost`. On the item-class path the first read
through a nil `lastOccurrence` (line 296) panics before anything is posted. -/
def dispatch (api : Collaborators) (configuration : Configuration) (channelId : String)
    (rollbar : Rollbar) : Outcome :=
  let project := fetchProject api configuration rollbar
  let projectTitle := project.1
  let timezone := project.2
  let pretext := api.GetUsernameList (usersMap api channelId)
  if rollbar.EventName = "item_velocity" then
    createPost api (attachmentPost configuration channelId
      (velocityAttachment api projectTitle timezone pretext rollbar))
  else if rollbar.EventName = "deploy" then
    createPost api (attachmentPost configuration channelId
      (deployAttachment api pretext rollbar))
  else if rollbar.EventName = "test" then
    createPost api (testPost configuration channelId rollbar)
  else
    match pickOccurrence rollbar with
    | none => nilPanic
    | some lastOccurrence =>
      createPost api (attachmentPost configuration channelId
        (itemAttachment api projectTitle pretext rollbar lastOccurrence))

/-- Source: http.go 107-119, decoding and validation, then `dispatch`. -/
def decodeAndDispatch (api : Collaborators) (configuration : Configuration)
    (channelId : String) (r : Request) : Outcome :=
  match api.Decode r.Body with
  | .error err => httpError err 400
  | .ok rollbar =>
    if isValid rollbar ≠ "" then httpError (isValid rollbar) 400
    else dispatch api configuration channelId rollbar

/-- Source: http.go 60-105, resolution of the destination: the two
missing-parameter checks, then the team lookup, then the channel lookup within
the resolved team. The result is the channel id, or the outcome of the
`http.Error` that ended the request. -/
def resolveTarget (api : Collaborators) (configuration : Configuration) (r : Request) :
    Except Outcome String :=
  if configuration.teamId = "" ∧ r.team = "" then
    .error (httpError "Missing \x27team\x27 query parameter." 400)
  else if configuration.channelId = "" ∧ r.channel = "" then
    .error (httpError "Missing \x27channel\x27 query parameter." 400)
  else
    match (if r.team = "" then some configuration.teamId else api.GetTeamByName r.team) with
    | none => .error (httpError ("Team \x27" ++ r.team ++ "\x27 does not exist.") 400)
    | some teamId =>
      if r.channel = "" then .ok configuration.channelId
      else
        match api.GetChannelByName teamId r.channel with
        | none => .error (httpError ("Channel \x27" ++ r.channel ++ "\x27 does not exist.") 400)
        | some channelId => .ok channelId

/-- Source: http.go 41-364, `handleWebhook`. -/
def handleWebhook (api : Collaborators) (configuration : Configuration) (r : Request) :
    Outcome :=
  if r.Method ≠ "POST" then httpError "Method not allowed." 405
  else if ConstantTimeCompare r.auth configuration.Secret ≠ 1 then
    httpError "Unauthenticated." 401
  else
    match resolveTarget api configuration r with
    | .error out => out
    | .ok channelId => decodeAndDispatch api configuration channelId r

/-- Source: http.go 32-39, `ServeHTTP`: only `/notify` reaches the handler,
any other path gets `http.NotFound`. -/
def ServeHTTP (api : Collaborators) (configuration : Configuration) (r : Request) : Outcome :=
  if r.Path = "/notify" then handleWebhook api configuration r
  else httpError "404 page not found" 404


/-! ## Specification-side predicate -/

/-- The failures of the project lookup that the handler detects: no API key,
or the request cannot be built, or cannot be sent, or the body cannot be read,
or cannot be unmarshalled. The status code of the response is not among
them. -/
def LookupFails (api : Collaborators) (configuration : Configuration) (rollbar : Rollbar) :
    Prop :=
  configuration.RollbarApiKey = "" ∨
  api.NewRequest ("https://api.rollbar.com/api/1/project/"
      ++ toString rollbar.Data.Item.ProjectID) ≠ none ∨
  (∃ err, api.Do ("https://api.rollbar.com/api/1/project/"
      ++ toString rollbar.Data.Item.ProjectID) configuration.RollbarApiKey = .error err) ∨
  (∃ response err, api.Do ("https://api.rollbar.com/api/1/project/"
      ++ toString rollbar.Data.Item.ProjectID) configuration.RollbarApiKey = .ok response ∧
    response.Body = .error err) ∨
  (∃ response responseData err, api.Do ("https://api.rollbar.com/api/1/project/"
      ++ toString rollbar.Data.Item.ProjectID) configuration.RollbarApiKey = .ok response ∧
    response.Body = .ok responseData ∧ api.UnmarshalProject responseData = .error err)

/-! ## Concrete collaborators used to evaluate the handler -/

/-- A notification with the given event name and occurrence records and fixed
other members. -/
def sampleRollbar (eventName : String) (lastOccurrence occurrence : Option LastOccurrence) :
    Rollbar :=
  { EventName := eventName,
    Data :=
      { Item := { ProjectID := 7, Environment := "production", LastOccurrenceTimestamp := 0,
                  Counter := 3, Title := "boom", LastOccurrence := lastOccurrence },
        Occurrence := occurrence,
        Deploy := { ID := 42, Environment := "production", Revision := "r1" },
        URL := "https://rollbar.com/demo/items/3/",
        Message := "hello" } }

/-- A project-API body: the JSON object with `result.name` "Demo" and
`result.settings.timezone` "UTC". -/
def projectJSON : String :=
  "\x7b\"result\":\x7b\"name\":\"Demo\",\"settings\":\x7b\"timezone\":\"UTC\"\x7d\x7d\x7d"

/-- Collaborators that answer every call the same way: the directory finds
`team` and `channel`, the body decodes to `decoded`, the project API answers
`project` (whose body unmarshals only when it is `projectJSON`), the mention list is `mentions`, `CreatePost` returns `postErr`. -/
def stubApi (team channel : Option String) (decoded : Except String Rollbar)
    (project : Except String HttpResponse) (mentions : String) (postErr : Option String) :
    Collaborators :=
  { GetTeamByName := fun _ => team,
    GetChannelByName := fun _ _ => channel,
    Decode := fun _ => decoded,
    NewRequest := fun _ => none,
    Do := fun _ _ => project,
    UnmarshalProject := fun body =>
      if body = projectJSON then .ok ⟨"Demo", "UTC"⟩ else .error "invalid character",
    KVGet := fun _ => "",
    UnmarshalUsers := fun _ => [],
    GetUsernameList := fun _ => mentions,
    eventNameToTitle := fun rollbar => if rollbar.EventName = "deploy" then "Deploy" else "New Error",
    eventText := fun _ => "TypeError: demo",
    deployDateTime := fun _ => "2019-10-20 12:45:58 PDT-0700",
    deployUser := fun _ => "dliu",
    FormatInZone := fun _ _ => some "Thu Jan  1 00:00:00 1970",
    CreatePost := fun _ => postErr }

/-- A deploy notification whose revision string has 600 characters. -/
def longDeploy : Rollbar :=
  { EventName := "deploy",
    Data :=
      { Item := { ProjectID := 7, Environment := "", LastOccurrenceTimestamp := 0,
                  Counter := 0, Title := "", LastOccurrence := none },
        Occurrence := none,
        Deploy := { ID := 42, Environment := "production",
                    Revision := String.mk (List.replicate 600 (Char.ofNat 114)) },
        URL := "https://rollbar.com/demo/deploy/42/",
        Message := "" } }

/-- A configuration with secret `s3` and the given defaults. -/
def sampleConfig (teamId channelId apiKey : String) : Configuration :=
  { Secret := [115, 51], teamId := teamId, channelId := channelId,
    RollbarApiKey := apiKey, botUserID := "bot" }

/-- A `POST /notify` request with the given query values. -/
def sampleRequest (auth : Bytes) (team channel : String) : Request :=
  { Path := "/notify", Method := "POST", auth := auth, team := team, channel := channel,
    Body := "body" }

/-! ## Lemmas on the authentication compare -/

theorem byteEq_zero (v : Fin 256) : ConstantTimeByteEq v 0 = 1 ↔ v = 0 := by
  obtain ⟨n, hn⟩ := v
  have h0 : ((0 : Fin 256) : Nat) = 0 := rfl
  simp only [ConstantTimeByteEq, h0, Nat.xor_zero, Nat.shiftRight_eq_div_pow, Int.ofNat_eq_coe]
  rw [Fin.ext_iff]
  simp only [h0]
  norm_num
  omega

theorem nat_lor_eq_zero {x y : Nat} (h : x ||| y = 0) : x = 0 ∧ y = 0 := by
  have key : ∀ i, x.testBit i = false ∧ y.testBit i = false := by
    intro i
    have hi : (x ||| y).testBit i = false := by rw [h]; simp
    rw [Nat.testBit_or] at hi
    simpa using hi
  exact ⟨Nat.eq_of_testBit_eq fun i => by simp [(key i).1],
    Nat.eq_of_testBit_eq fun i => by simp [(key i).2]⟩

theorem fin_lor_eq_zero (v w : Fin 256) : v ||| w = 0 ↔ v = 0 ∧ w = 0 := by
  constructor
  · intro h
    have h1 : (v ||| w).val = 0 := by rw [h]; rfl
    have h2 : (v ||| w).val = (v.val ||| w.val) % 256 := rfl
    have h3 : v.val ||| w.val < 256 := @Nat.or_lt_two_pow v.val w.val 8 v.isLt w.isLt
    rw [h2, Nat.mod_eq_of_lt h3] at h1
    have := nat_lor_eq_zero h1
    exact ⟨Fin.ext this.1, Fin.ext this.2⟩
  · rintro ⟨rfl, rfl⟩; rfl

theorem fin_xor_eq_zero (a b : Fin 256) : a ^^^ b = 0 ↔ a = b := by
  constructor
  · intro h
    have h1 : (a ^^^ b).val = 0 := by rw [h]; rfl
    have h2 : (a ^^^ b).val = (a.val ^^^ b.val) % 256 := rfl
    have h3 : a.val ^^^ b.val < 256 := @Nat.xor_lt_two_pow a.val b.val 8 a.isLt b.isLt
    rw [h2, Nat.mod_eq_of_lt h3] at h1
    exact Fin.ext (Nat.xor_eq_zero.mp h1)
  · rintro rfl
    apply Fin.ext
    show (a.val ^^^ a.val) % 256 = 0
    simp

theorem xorFold_eq_zero : ∀ (x y : Bytes) (v : Fin 256), x.length = y.length →
    (xorFold v x y = 0 ↔ v = 0 ∧ x = y)
  | [], [], v, _ => by simp [xorFold]
  | [], _ :: _, _, h => by simp at h
  | _ :: _, [], _, h => by simp at h
  | a :: x, b :: y, v, h => by
    have hl : x.length = y.length := by simpa using h
    rw [xorFold, xorFold_eq_zero x y _ hl, fin_lor_eq_zero, fin_xor_eq_zero]
    simp [and_assoc]

/-- The compare returns `1` exactly on equal byte strings, of any lengths. -/
theorem ConstantTimeCompare_eq_one (x y : Bytes) : ConstantTimeCompare x y = 1 ↔ x = y := by
  unfold ConstantTimeCompare
  by_cases h : x.length = y.length
  · simp only [ne_eq, h, not_true_eq_false, if_false, byteEq_zero, xorFold_eq_zero x y 0 h,
      true_and]
  · simp only [ne_eq, h, not_false_eq_true, if_true]
    constructor
    · intro h0; exact absurd h0 (by decide)
    · intro hxy; exact absurd (congrArg List.length hxy) h

/-! ## Lemmas on the stages of the handler -/

theorem createPost_posts (api : Collaborators) (post : Post) :
    (createPost api post).posts = [post] := by
  unfold createPost; cases api.CreatePost post <;> rfl

theorem createPost_panicked (api : Collaborators) (post : Post) :
    (createPost api post).panicked = false := by
  unfold createPost; cases api.CreatePost post <;> rfl

theorem createPost_response (api : Collaborators) (post : Post) :
    (createPost api post).response = (api.CreatePost post).map fun err => ⟨500, err⟩ := by
  unfold createPost; cases api.CreatePost post <;> rfl

/-- After validation the handler is the dispatch stage, and that stage either
panics before any post or is one `CreatePost`. -/
theorem dispatch_cases (api : Collaborators) (configuration : Configuration)
    (channelId : String) (rollbar : Rollbar) :
    dispatch api configuration channelId rollbar = nilPanic ∨
      ∃ post, dispatch api configuration channelId rollbar = createPost api post := by
  unfold dispatch
  simp only
  split_ifs
  · exact Or.inr ⟨_, rfl⟩
  · exact Or.inr ⟨_, rfl⟩
  · exact Or.inr ⟨_, rfl⟩
  · cases pickOccurrence rollbar with
    | none => exact Or.inl rfl
    | some lo => exact Or.inr ⟨_, rfl⟩

theorem handleWebhook_authenticated (api : Collaborators) (configuration : Configuration)
    (r : Request) (hpost : r.Method = "POST") (hauth : r.auth = configuration.Secret) :
    handleWebhook api configuration r =
      match resolveTarget api configuration r with
      | .error out => out
      | .ok channelId => decodeAndDispatch api configuration channelId r := by
  have h1 : ConstantTimeCompare r.auth configuration.Secret = 1 :=
    (ConstantTimeCompare_eq_one _ _).mpr hauth
  unfold handleWebhook
  simp [hpost, h1]

theorem handleWebhook_validated (api : Collaborators) (configuration : Configuration)
    (r : Request) (channelId : String) (rollbar : Rollbar)
    (hpost : r.Method = "POST") (hauth : r.auth = configuration.Secret)
    (htarget : resolveTarget api configuration r = .ok channelId)
    (hdecode : api.Decode r.Body = .ok rollbar) (hvalid : isValid rollbar = "") :
    handleWebhook api configuration r = dispatch api configuration channelId rollbar := by
  rw [handleWebhook_authenticated api configuration r hpost hauth, htarget]
  simp [decodeAndDispatch, hdecode, hvalid]

/-- Every response the resolution stage writes is a 400. -/
theorem resolveTarget_error_status (api : Collaborators) (configuration : Configuration)
    (r : Request) (out : Outcome) (h : resolveTarget api configuration r = .error out) :
    ∃ msg, out = httpError msg 400 := by
  unfold resolveTarget at h
  repeat' split at h
  all_goals first | (cases h; exact ⟨_, rfl⟩) | cases h

/-- Every response written after authentication is a 400 or a 500. -/
theorem authenticated_status (api : Collaborators) (configuration : Configuration)
    (r : Request) (hpost : r.Method = "POST") (hauth : r.auth = configuration.Secret)
    (resp : Response) (h : (handleWebhook api configuration r).response = some resp) :
    resp.status = 400 ∨ resp.status = 500 := by
  rw [handleWebhook_authenticated api configuration r hpost hauth] at h
  cases ht : resolveTarget api configuration r with
  | error out =>
    obtain ⟨msg, rfl⟩ := resolveTarget_error_status api configuration r out ht
    rw [ht] at h
    simp only [httpError, Option.some.injEq] at h
    exact Or.inl (by rw [← h])
  | ok channelId =>
    rw [ht] at h
    simp only [decodeAndDispatch] at h
    cases hd : api.Decode r.Body with
    | error err =>
      rw [hd] at h
      simp only [httpError, Option.some.injEq] at h
      exact Or.inl (by rw [← h])
    | ok rollbar =>
      rw [hd] at h
      simp only at h
      split_ifs at h with hv
      · simp only [httpError, Option.some.injEq] at h
        exact Or.inl (by rw [← h])
      · rcases dispatch_cases api configuration channelId rollbar with hp | ⟨post, hp⟩
        · rw [hp] at h; simp [nilPanic] at h
        · rw [hp, createPost_response] at h
          cases hc : api.CreatePost post with
          | none => rw [hc] at h; simp at h
          | some err =>
            rw [hc] at h
            simp only [Option.map_some', Option.some.injEq] at h
            exact Or.inr (by rw [← h])

/-! ## The four paths of the dispatch stage -/

theorem dispatch_velocity (api : Collaborators) (configuration : Configuration)
    (channelId : String) (rollbar : Rollbar) (h : rollbar.EventName = "item_velocity") :
    dispatch api configuration channelId rollbar =
      createPost api (attachmentPost configuration channelId
        (velocityAttachment api (fetchProject api configuration rollbar).1
          (fetchProject api configuration rollbar).2
          (api.GetUsernameList (usersMap api channelId)) rollbar)) := by
  simp [dispatch, h]

theorem dispatch_deploy (api : Collaborators) (configuration : Configuration)
    (channelId : String) (rollbar : Rollbar) (h : rollbar.EventName = "deploy") :
    dispatch api configuration channelId rollbar =
      createPost api (attachmentPost configuration channelId
        (deployAttachment api (api.GetUsernameList (usersMap api channelId)) rollbar)) := by
  simp [dispatch, h]

theorem dispatch_test (api : Collaborators) (configuration : Configuration)
    (channelId : String) (rollbar : Rollbar) (h : rollbar.EventName = "test") :
    dispatch api configuration channelId rollbar =
      createPost api (testPost configuration channelId rollbar) := by
  simp [dispatch, h]

theorem dispatch_item (api : Collaborators) (configuration : Configuration)
    (channelId : String) (rollbar : Rollbar) (lastOccurrence : LastOccurrence)
    (h1 : rollbar.EventName ≠ "item_velocity") (h2 : rollbar.EventName ≠ "deploy")
    (h3 : rollbar.EventName ≠ "test") (hocc : pickOccurrence rollbar = some lastOccurrence) :
    dispatch api configuration channelId rollbar =
      createPost api (attachmentPost configuration channelId
        (itemAttachment api (fetchProject api configuration rollbar).1
          (api.GetUsernameList (usersMap api channelId)) rollbar lastOccurrence)) := by
  simp [dispatch, h1, h2, h3, hocc]

theorem dispatch_item_nil (api : Collaborators) (configuration : Configuration)
    (channelId : String) (rollbar : Rollbar)
    (h1 : rollbar.EventName ≠ "item_velocity") (h2 : rollbar.EventName ≠ "deploy")
    (h3 : rollbar.EventName ≠ "test") (hocc : pickOccurrence rollbar = none) :
    dispatch api configuration channelId rollbar = nilPanic := by
  simp [dispatch, h1, h2, h3, hocc]

/-- Every attachment of every post of the dispatch stage is one of the three
attachments built on the velocity, deploy and item-class paths. -/
theorem dispatch_attachment (api : Collaborators) (configuration : Configuration)
    (channelId : String) (rollbar : Rollbar) (post : Post) (att : SlackAttachment)
    (hpostIn : post ∈ (dispatch api configuration channelId rollbar).posts)
    (hatt : att ∈ post.attachments) :
    (rollbar.EventName = "item_velocity" ∧
      att = velocityAttachment api (fetchProject api configuration rollbar).1
        (fetchProject api configuration rollbar).2
        (api.GetUsernameList (usersMap api channelId)) rollbar) ∨
    (rollbar.EventName = "deploy" ∧
      att = deployAttachment api (api.GetUsernameList (usersMap api channelId)) rollbar) ∨
    (rollbar.EventName ≠ "item_velocity" ∧ rollbar.EventName ≠ "deploy" ∧
      rollbar.EventName ≠ "test" ∧
      ∃ lastOccurrence, pickOccurrence rollbar = some lastOccurrence ∧
        att = itemAttachment api (fetchProject api configuration rollbar).1
          (api.GetUsernameList (usersMap api channelId)) rollbar lastOccurrence) := by
  by_cases h1 : rollbar.EventName = "item_velocity"
  · rw [dispatch_velocity _ _ _ _ h1, createPost_posts, List.mem_singleton] at hpostIn
    subst hpostIn
    simp only [attachmentPost, List.mem_singleton] at hatt
    exact Or.inl ⟨h1, hatt⟩
  by_cases h2 : rollbar.EventName = "deploy"
  · rw [dispatch_deploy _ _ _ _ h2, createPost_posts, List.mem_singleton] at hpostIn
    subst hpostIn
    simp only [attachmentPost, List.mem_singleton] at hatt
    exact Or.inr (Or.inl ⟨h2, hatt⟩)
  by_cases h3 : rollbar.EventName = "test"
  · rw [dispatch_test _ _ _ _ h3, createPost_posts, List.mem_singleton] at hpostIn
    subst hpostIn
    simp [testPost] at hatt
  cases hocc : pickOccurrence rollbar with
  | none =>
    rw [dispatch_item_nil _ _ _ _ h1 h2 h3 hocc] at hpostIn
    simp [nilPanic] at hpostIn
  | some lastOccurrence =>
    rw [dispatch_item _ _ _ _ _ h1 h2 h3 hocc, createPost_posts, List.mem_singleton] at hpostIn
    subst hpostIn
    simp only [attachmentPost, List.mem_singleton] at hatt
    exact Or.inr (Or.inr ⟨h1, h2, h3, lastOccurrence, rfl, hatt⟩)

/-- Every response of the dispatch stage is the 500 of a failed `CreatePost`. -/
theorem dispatch_response (api : Collaborators) (configuration : Configuration)
    (channelId : String) (rollbar : Rollbar) (resp : Response)
    (h : (dispatch api configuration channelId rollbar).response = some resp) :
    resp.status = 500 ∧ ∃ post, (dispatch api configuration channelId rollbar).posts = [post] ∧
      api.CreatePost post = some resp.body := by
  rcases dispatch_cases api configuration channelId rollbar with hp | ⟨post, hp⟩
  · rw [hp] at h; simp [nilPanic] at h
  · rw [hp] at h ⊢
    rw [createPost_response] at h
    rw [createPost_posts]
    cases hc : api.CreatePost post with
    | none => rw [hc] at h; simp at h
    | some err =>
      rw [hc] at h
      simp only [Option.map_some', Option.some.injEq] at h
      subst h
      exact ⟨rfl, post, rfl, hc⟩

theorem withPretext_Pretext (attachment : SlackAttachment) (pretext : String) :
    (withPretext attachment pretext).Pretext =
      if pretext ≠ "None" then pretext else attachment.Pretext := by
  unfold withPretext; split_ifs <;> rfl

theorem withPretext_Fields (attachment : SlackAttachment) (pretext : String) :
    (withPretext attachment pretext).Fields = attachment.Fields := by
  unfold withPretext; split_ifs <;> rfl

theorem withPretext_Title (attachment : SlackAttachment) (pretext : String) :
    (withPretext attachment pretext).Title = attachment.Title := by
  unfold withPretext; split_ifs <;> rfl

theorem withPretext_TitleLink (attachment : SlackAttachment) (pretext : String) :
    (withPretext attachment pretext).TitleLink = attachment.TitleLink := by
  unfold withPretext; split_ifs <;> rfl

theorem withPretext_Fallback (attachment : SlackAttachment) (pretext : String) :
    (withPretext attachment pretext).Fallback = attachment.Fallback := by
  unfold withPretext; split_ifs <;> rfl

theorem withPretext_Text (attachment : SlackAttachment) (pretext : String) :
    (withPretext attachment pretext).Text = attachment.Text := by
  unfold withPretext; split_ifs <;> rfl

/-! ## Lengths of truncated and of deploy texts -/

/-- A truncated string has at most `num` characters plus the ellipsis. -/
theorem TruncateString_length_le (str : String) (num : Nat) :
    (TruncateString str num).length ≤ num + 3 := by
  unfold TruncateString
  split_ifs with h
  · omega
  · rw [String.length_append]
    have h1 : (String.mk (str.data.take num)).length ≤ num := by
      show (str.data.take num).length ≤ num
      rw [List.length_take]
      exact Nat.min_le_left _ _
    have h2 : ("...".length) = 3 := by decide
    omega

theorem deployText_length_ge (api : Collaborators) (rollbar : Rollbar) :
    rollbar.Data.Deploy.Revision.length ≤ (deployText api rollbar).length := by
  simp only [deployText, String.length_append]
  omega

theorem deployAttachment_Text (api : Collaborators) (pretext : String) (rollbar : Rollbar) :
    (deployAttachment api pretext rollbar).Text = deployText api rollbar := by
  simp [deployAttachment, withPretext_Text]

theorem deployAttachment_Fallback (api : Collaborators) (pretext : String) (rollbar : Rollbar) :
    (deployAttachment api pretext rollbar).Fallback =
      "[" ++ api.eventNameToTitle rollbar ++ "] " ++ rollbar.Data.Deploy.Environment ++ " - "
        ++ deployText api rollbar := by
  simp [deployAttachment, withPretext_Fallback]

theorem longDeploy_revision_length : longDeploy.Data.Deploy.Revision.length = 600 := by
  show (List.replicate 600 (Char.ofNat 114)).length = 600
  exact List.length_replicate _ _

/-! ## The project lookup -/

theorem fetchProject_of_fails (api : Collaborators) (configuration : Configuration)
    (rollbar : Rollbar) (h : LookupFails api configuration rollbar) :
    fetchProject api configuration rollbar = ("", "") := by
  unfold fetchProject
  by_cases hkey : configuration.RollbarApiKey = ""
  · simp [hkey]
  rw [if_pos hkey]
  simp only
  rcases h with h | h | ⟨err, h⟩ | ⟨response, err, h, hb⟩ | ⟨response, data, err, h, hb, hu⟩
  · exact absurd h hkey
  · cases hn : api.NewRequest ("https://api.rollbar.com/api/1/project/"
        ++ toString rollbar.Data.Item.ProjectID) with
    | none => exact absurd hn h
    | some e => rfl
  · cases hn : api.NewRequest ("https://api.rollbar.com/api/1/project/"
        ++ toString rollbar.Data.Item.ProjectID) with
    | some e => rfl
    | none => simp [h]
  · cases hn : api.NewRequest ("https://api.rollbar.com/api/1/project/"
        ++ toString rollbar.Data.Item.ProjectID) with
    | some e => rfl
    | none => simp [h, hb]
  · cases hn : api.NewRequest ("https://api.rollbar.com/api/1/project/"
        ++ toString rollbar.Data.Item.ProjectID) with
    | some e => rfl
    | none => simp [h, hb, hu]

theorem fetchProject_of_parsed (api : Collaborators) (configuration : Configuration)
    (rollbar : Rollbar) (response : HttpResponse) (responseData : String)
    (projectData : ProjectData) (hkey : configuration.RollbarApiKey ≠ "")
    (hreq : api.NewRequest ("https://api.rollbar.com/api/1/project/"
      ++ toString rollbar.Data.Item.ProjectID) = none)
    (hdo : api.Do ("https://api.rollbar.com/api/1/project/"
      ++ toString rollbar.Data.Item.ProjectID) configuration.RollbarApiKey = .ok response)
    (hbody : response.Body = .ok responseData)
    (hparse : api.UnmarshalProject responseData = .ok projectData) :
    fetchProject api configuration rollbar = (projectData.Name, projectData.Timezone) := by
  unfold fetchProject
  rw [if_pos hkey]
  simp [hreq, hdo, hbody, hparse]

theorem lastOccurrenceTime_empty (api : Collaborators) (rollbar : Rollbar) :
    lastOccurrenceTime api "" rollbar = "" := by
  simp [lastOccurrenceTime]

theorem velocityAttachment_Fields (api : Collaborators) (projectTitle timezone pretext : String)
    (rollbar : Rollbar) :
    (velocityAttachment api projectTitle timezone pretext rollbar).Fields =
      [ ⟨true, "Project", projectTitle⟩,
        ⟨true, "Last Occurrence", lastOccurrenceTime api timezone rollbar⟩,
        ⟨true, "Environment", rollbar.Data.Item.Environment⟩,
        ⟨true, "Links", "[Occurrences](" ++ rollbar.Data.URL ++ ")"⟩ ] := by
  rw [velocityAttachment, withPretext_Fields]

theorem deployAttachment_Fields (api : Collaborators) (pretext : String) (rollbar : Rollbar) :
    (deployAttachment api pretext rollbar).Fields = [] := by
  rw [deployAttachment, withPretext_Fields]

theorem itemAttachment_Fields (api : Collaborators) (projectTitle pretext : String)
    (rollbar : Rollbar) (lastOccurrence : LastOccurrence) :
    (itemAttachment api projectTitle pretext rollbar lastOccurrence).Fields =
      [ ⟨true, "Project", projectTitle⟩,
        ⟨true, "Environment", rollbar.Data.Item.Environment⟩,
        ⟨true, "Language", lastOccurrence.Language⟩,
        ⟨true, "Links", "[Item](" ++ ("https://rollbar.com/item/uuid/?uuid=" ++ lastOccurrence.UUID)
          ++ ") | [Occurrence]("
          ++ ("https://rollbar.com/occurrence/uuid/?uuid=" ++ lastOccurrence.UUID) ++ ")"⟩ ] := by
  rw [itemAttachment, withPretext_Fields]

/-! ## The claims -/

/-- C1: a POST to `/notify` is answered 401 "Unauthenticated." with no post
created exactly when the query `auth` bytes differ from the configured secret
(whatever the two lengths); with equal bytes no response has status 401. -/
theorem C1_unauthenticated_iff_secret_differs (api : Collaborators)
    (configuration : Configuration) (r : Request)
    (hpath : r.Path = "/notify") (hpost : r.Method = "POST") :
    (((ServeHTTP api configuration r).response = some ⟨401, "Unauthenticated."⟩ ∧
        (ServeHTTP api configuration r).posts = []) ↔ r.auth ≠ configuration.Secret) ∧
    (r.auth = configuration.Secret →
      ∀ resp, (ServeHTTP api configuration r).response = some resp → resp.status ≠ 401) := by
  have hserve : ServeHTTP api configuration r = handleWebhook api configuration r := by
    simp [ServeHTTP, hpath]
  rw [hserve]
  have hall : r.auth = configuration.Secret →
      ∀ resp, (handleWebhook api configuration r).response = some resp → resp.status ≠ 401 := by
    intro hauth resp hresp
    rcases authenticated_status api configuration r hpost hauth resp hresp with h | h <;>
      rw [h] <;> decide
  refine ⟨⟨?_, ?_⟩, hall⟩
  · rintro ⟨hresp, -⟩ hauth
    exact hall hauth _ hresp rfl
  · intro hne
    have h1 : ConstantTimeCompare r.auth configuration.Secret ≠ 1 :=
      fun h => hne ((ConstantTimeCompare_eq_one _ _).mp h)
    unfold handleWebhook
    simp [hpost, h1, httpError]

/-- Witness of C1: a one-byte `auth` against the two-byte secret. -/
theorem C1_unauthenticated_witness :
    (((ServeHTTP (stubApi none none (.error "EOF") (.error "down") "None" none)
          (sampleConfig "t" "c" "") (sampleRequest [115] "" "")).response
        = some ⟨401, "Unauthenticated."⟩ ∧
      (ServeHTTP (stubApi none none (.error "EOF") (.error "down") "None" none)
          (sampleConfig "t" "c" "") (sampleRequest [115] "" "")).posts = []) ↔
      (sampleRequest [115] "" "").auth ≠ (sampleConfig "t" "c" "").Secret) ∧
    ((sampleRequest [115] "" "").auth = (sampleConfig "t" "c" "").Secret →
      ∀ resp, (ServeHTTP (stubApi none none (.error "EOF") (.error "down") "None" none)
          (sampleConfig "t" "c" "") (sampleRequest [115] "" "")).response = some resp →
        resp.status ≠ 401) :=
  C1_unauthenticated_iff_secret_differs _ _ _ rfl rfl

/-- C2: the validator returns `""` for each of the nine supported event names,
"Missing rollbar.event_name" for an empty name (which is also outside the
supported set: the empty-name message wins), and
"Unsupported rollbar.event_name" for every other non-empty name. -/
theorem C2_isValid_messages (rollbar : Rollbar) :
    (rollbar.EventName ∈ ["new_item", "occurrence", "reactivated_item", "exp_repeat_item",
        "resolved_item", "reopened_item", "item_velocity", "deploy", "test"] →
      isValid rollbar = "") ∧
    (rollbar.EventName = "" →
      rollbar.EventName ∉ ["new_item", "occurrence", "reactivated_item", "exp_repeat_item",
        "resolved_item", "reopened_item", "item_velocity", "deploy", "test"] ∧
      isValid rollbar = "Missing rollbar.event_name") ∧
    (rollbar.EventName ≠ "" →
      rollbar.EventName ∉ ["new_item", "occurrence", "reactivated_item", "exp_repeat_item",
        "resolved_item", "reopened_item", "item_velocity", "deploy", "test"] →
      isValid rollbar = "Unsupported rollbar.event_name") := by
  refine ⟨?_, ?_, ?_⟩
  · intro hmem
    have hne : rollbar.EventName ≠ "" := by
      intro h0
      rw [h0] at hmem
      exact absurd hmem (by decide)
    have hin : rollbar.EventName ∈ supportedEvents := hmem
    simp only [isValid, hne, if_false]
    rw [if_neg (not_not.mpr hin)]
  · intro h0
    refine ⟨?_, by simp [isValid, h0]⟩
    rw [h0]
    decide
  · intro hne hnot
    have hout : rollbar.EventName ∉ supportedEvents := hnot
    simp only [isValid, hne, if_false]
    rw [if_pos hout]

/-- Witness of C2: the three kinds of event name, evaluated. -/
theorem C2_isValid_witness :
    isValid (sampleRollbar "deploy" none none) = "" ∧
    isValid (sampleRollbar "" none none) = "Missing rollbar.event_name" ∧
    isValid (sampleRollbar "ping" none none) = "Unsupported rollbar.event_name" :=
  ⟨(C2_isValid_messages (sampleRollbar "deploy" none none)).1 (by decide),
   ((C2_isValid_messages (sampleRollbar "" none none)).2.1 rfl).2,
   (C2_isValid_messages (sampleRollbar "ping" none none)).2.2 (by decide) (by decide)⟩

/-- C3, as stated, fails: an authenticated POST whose body decodes into a
notification the validator rejects with "Missing rollbar.event_name" is
answered 400 "Missing 'team' query parameter." when neither a `team` query
parameter nor a default team exists; the body is never decoded. -/
theorem C3_counterexample_target_checked_first :
    (sampleRequest [115, 51] "" "").Method = "POST" ∧
    (sampleRequest [115, 51] "" "").auth = (sampleConfig "" "c" "").Secret ∧
    (stubApi none none (.ok (sampleRollbar "" none none)) (.error "down") "None" none).Decode
        (sampleRequest [115, 51] "" "").Body = .ok (sampleRollbar "" none none) ∧
    isValid (sampleRollbar "" none none) = "Missing rollbar.event_name" ∧
    (handleWebhook (stubApi none none (.ok (sampleRollbar "" none none)) (.error "down") "None" none)
        (sampleConfig "" "c" "") (sampleRequest [115, 51] "" "")).response
      = some ⟨400, "Missing \x27team\x27 query parameter."⟩ ∧
    (handleWebhook (stubApi none none (.ok (sampleRollbar "" none none)) (.error "down") "None" none)
        (sampleConfig "" "c" "") (sampleRequest [115, 51] "" "")).response
      ≠ some ⟨400, isValid (sampleRollbar "" none none)⟩ := by
  refine ⟨rfl, rfl, rfl, by decide, by decide, by decide⟩

/-- C3, amended: for an authenticated POST whose destination resolves to a
channel and whose body decodes into a notification the validator rejects with
a non-empty message, the handler answers 400 with exactly that message and
hands no post to `CreatePost`. -/
theorem C3_invalid_notification_rejected (api : Collaborators)
    (configuration : Configuration) (r : Request) (channelId : String) (rollbar : Rollbar)
    (hpost : r.Method = "POST") (hauth : r.auth = configuration.Secret)
    (htarget : resolveTarget api configuration r = .ok channelId)
    (hdecode : api.Decode r.Body = .ok rollbar) (hinvalid : isValid rollbar ≠ "") :
    (handleWebhook api configuration r).response = some ⟨400, isValid rollbar⟩ ∧
    (handleWebhook api configuration r).posts = [] ∧
    (handleWebhook api configuration r).panicked = false := by
  rw [handleWebhook_authenticated api configuration r hpost hauth, htarget]
  simp [decodeAndDispatch, hdecode, hinvalid, httpError]

/-- Witness of C3 (amended): default team and channel, an unsupported event. -/
theorem C3_invalid_notification_witness :
    (handleWebhook (stubApi none none (.ok (sampleRollbar "ping" none none)) (.error "down") "None" none)
        (sampleConfig "t" "c" "") (sampleRequest [115, 51] "" "")).response
      = some ⟨400, isValid (sampleRollbar "ping" none none)⟩ ∧
    (handleWebhook (stubApi none none (.ok (sampleRollbar "ping" none none)) (.error "down") "None" none)
        (sampleConfig "t" "c" "") (sampleRequest [115, 51] "" "")).posts = [] ∧
    (handleWebhook (stubApi none none (.ok (sampleRollbar "ping" none none)) (.error "down") "None" none)
        (sampleConfig "t" "c" "") (sampleRequest [115, 51] "" "")).panicked = false :=
  C3_invalid_notification_rejected _ _ _ "c" _ rfl rfl rfl rfl (by decide)

/-- C4, as stated, fails: with an unknown team in the query, no `channel`
query parameter and no default channel, the response reports the missing
channel parameter, not the team. -/
theorem C4_counterexample_channel_check_precedes_team_lookup :
    (sampleRequest [115, 51] "ghost" "").Method = "POST" ∧
    (sampleRequest [115, 51] "ghost" "").auth = (sampleConfig "t" "" "").Secret ∧
    (stubApi none none (.error "EOF") (.error "down") "None" none).GetTeamByName "ghost" = none ∧
    (handleWebhook (stubApi none none (.error "EOF") (.error "down") "None" none)
        (sampleConfig "t" "" "") (sampleRequest [115, 51] "ghost" "")).response
      = some ⟨400, "Missing \x27channel\x27 query parameter."⟩ ∧
    (handleWebhook (stubApi none none (.error "EOF") (.error "down") "None" none)
        (sampleConfig "t" "" "") (sampleRequest [115, 51] "ghost" "")).response
      ≠ some ⟨400, "Team \x27ghost\x27 does not exist."⟩ := by
  refine ⟨rfl, rfl, rfl, by decide, by decide⟩

/-- C4, amended: for an authenticated POST whose non-empty `team` query
parameter names a team the directory does not find, the response is 400
"Team '<name>' does not exist." provided a channel is named (a `channel` query
parameter or a default channel); when neither is, the missing-parameter check
comes first and the response is 400 "Missing 'channel' query parameter.". No
post is created either way. -/
theorem C4_unknown_team_reported (api : Collaborators) (configuration : Configuration)
    (r : Request) (hpost : r.Method = "POST") (hauth : r.auth = configuration.Secret)
    (hteam : r.team ≠ "") (hlookup : api.GetTeamByName r.team = none) :
    (¬ (configuration.channelId = "" ∧ r.channel = "") →
      handleWebhook api configuration r
        = httpError ("Team \x27" ++ r.team ++ "\x27 does not exist.") 400) ∧
    ((configuration.channelId = "" ∧ r.channel = "") →
      handleWebhook api configuration r
        = httpError "Missing \x27channel\x27 query parameter." 400) ∧
    (handleWebhook api configuration r).posts = [] := by
  rw [handleWebhook_authenticated api configuration r hpost hauth]
  have hfirst : ¬ (configuration.teamId = "" ∧ r.team = "") := fun h => hteam h.2
  by_cases hchan : configuration.channelId = "" ∧ r.channel = ""
  · have ht : resolveTarget api configuration r
        = .error (httpError "Missing \x27channel\x27 query parameter." 400) := by
      unfold resolveTarget
      rw [if_neg hfirst, if_pos hchan]
    rw [ht]
    exact ⟨fun h => absurd hchan h, fun _ => rfl, rfl⟩
  · have ht : resolveTarget api configuration r
        = .error (httpError ("Team \x27" ++ r.team ++ "\x27 does not exist.") 400) := by
      unfold resolveTarget
      rw [if_neg hfirst, if_neg hchan, if_neg hteam, hlookup]
    rw [ht]
    exact ⟨fun _ => rfl, fun h => absurd h hchan, rfl⟩

/-- Witness of C4 (amended): an unknown team with a default channel. -/
theorem C4_unknown_team_witness :
    handleWebhook (stubApi none none (.error "EOF") (.error "down") "None" none)
        (sampleConfig "t" "c" "") (sampleRequest [115, 51] "ghost" "")
      = httpError "Team \x27ghost\x27 does not exist." 400 :=
  (C4_unknown_team_reported (stubApi none none (.error "EOF") (.error "down") "None" none)
    (sampleConfig "t" "c" "") (sampleRequest [115, 51] "ghost" "") rfl rfl
    (by decide) rfl).1 (by decide)

/-- C5: for a request that passed validation, each of the four paths
(item_velocity, deploy, test, item-class with an occurrence record) hands one
post to `CreatePost` and writes 500 with the error text exactly when that call
returns an error, nothing when it succeeds; and no response is ever written
after validation that is not the 500 of a failed `CreatePost`. -/
theorem C5_status_500_iff_createPost_fails (api : Collaborators)
    (configuration : Configuration) (r : Request) (channelId : String) (rollbar : Rollbar)
    (hpost : r.Method = "POST") (hauth : r.auth = configuration.Secret)
    (htarget : resolveTarget api configuration r = .ok channelId)
    (hdecode : api.Decode r.Body = .ok rollbar) (hvalid : isValid rollbar = "") :
    ((rollbar.EventName = "item_velocity" ∨ rollbar.EventName = "deploy" ∨
        rollbar.EventName = "test" ∨ pickOccurrence rollbar ≠ none) →
      ∃ post, (handleWebhook api configuration r).posts = [post] ∧
        (∀ err, (handleWebhook api configuration r).response = some ⟨500, err⟩ ↔
          api.CreatePost post = some err) ∧
        ((handleWebhook api configuration r).response = none ↔ api.CreatePost post = none)) ∧
    (∀ resp, (handleWebhook api configuration r).response = some resp →
      resp.status = 500 ∧ ∃ post, (handleWebhook api configuration r).posts = [post] ∧
        api.CreatePost post = some resp.body) := by
  rw [handleWebhook_validated api configuration r channelId rollbar hpost hauth htarget hdecode
    hvalid]
  refine ⟨?_, fun resp h => dispatch_response api configuration channelId rollbar resp h⟩
  intro hpath
  have hex : ∃ post, dispatch api configuration channelId rollbar = createPost api post := by
    by_cases h1 : rollbar.EventName = "item_velocity"
    · exact ⟨_, dispatch_velocity _ _ _ _ h1⟩
    by_cases h2 : rollbar.EventName = "deploy"
    · exact ⟨_, dispatch_deploy _ _ _ _ h2⟩
    by_cases h3 : rollbar.EventName = "test"
    · exact ⟨_, dispatch_test _ _ _ _ h3⟩
    cases hocc : pickOccurrence rollbar with
    | none =>
      rcases hpath with h | h | h | h
      · exact absurd h h1
      · exact absurd h h2
      · exact absurd h h3
      · exact absurd hocc h
    | some lastOccurrence => exact ⟨_, dispatch_item _ _ _ _ _ h1 h2 h3 hocc⟩
  obtain ⟨post, hd⟩ := hex
  refine ⟨post, ?_, ?_, ?_⟩
  · rw [hd, createPost_posts]
  · intro err
    rw [hd, createPost_response]
    cases api.CreatePost post <;> simp
  · rw [hd, createPost_response]
    cases api.CreatePost post <;> simp

/-- Witness of C5: a deploy event whose post the collaborator refuses. -/
theorem C5_status_500_witness :
    isValid (sampleRollbar "deploy" none none) = "" ∧
    ∃ post, (handleWebhook (stubApi none none (.ok (sampleRollbar "deploy" none none))
          (.error "down") "None" (some "post failed"))
        (sampleConfig "t" "c" "") (sampleRequest [115, 51] "" "")).posts = [post] ∧
      (∀ err, (handleWebhook (stubApi none none (.ok (sampleRollbar "deploy" none none))
            (.error "down") "None" (some "post failed"))
          (sampleConfig "t" "c" "") (sampleRequest [115, 51] "" "")).response = some ⟨500, err⟩ ↔
        (stubApi none none (.ok (sampleRollbar "deploy" none none)) (.error "down")
          "None" (some "post failed")).CreatePost post = some err) ∧
      ((handleWebhook (stubApi none none (.ok (sampleRollbar "deploy" none none))
            (.error "down") "None" (some "post failed"))
          (sampleConfig "t" "c" "") (sampleRequest [115, 51] "" "")).response = none ↔
        (stubApi none none (.ok (sampleRollbar "deploy" none none)) (.error "down")
          "None" (some "post failed")).CreatePost post = none) :=
  ⟨by decide,
    (C5_status_500_iff_createPost_fails
      (stubApi none none (.ok (sampleRollbar "deploy" none none)) (.error "down") "None"
        (some "post failed"))
      (sampleConfig "t" "c" "") (sampleRequest [115, 51] "" "") "c"
      (sampleRollbar "deploy" none none) rfl rfl rfl rfl (by decide)).1 (Or.inr (Or.inl rfl))⟩

/-- C6: in every attachment the handler posts, the pretext is the string
`GetUsernameList` returned when that string is not "None" and is left empty
when it is; so no posted attachment has the pretext "None". -/
theorem C6_pretext_never_sentinel (api : Collaborators)
    (configuration : Configuration) (r : Request) (channelId : String) (rollbar : Rollbar)
    (hpost : r.Method = "POST") (hauth : r.auth = configuration.Secret)
    (htarget : resolveTarget api configuration r = .ok channelId)
    (hdecode : api.Decode r.Body = .ok rollbar) (hvalid : isValid rollbar = "") :
    ∀ post ∈ (handleWebhook api configuration r).posts, ∀ att ∈ post.attachments,
      (api.GetUsernameList (usersMap api channelId) ≠ "None" →
        att.Pretext = api.GetUsernameList (usersMap api channelId)) ∧
      (api.GetUsernameList (usersMap api channelId) = "None" → att.Pretext = "") ∧
      att.Pretext ≠ "None" := by
  rw [handleWebhook_validated api configuration r channelId rollbar hpost hauth htarget hdecode
    hvalid]
  intro post hpostIn att hatt
  have key : att.Pretext = if api.GetUsernameList (usersMap api channelId) ≠ "None"
      then api.GetUsernameList (usersMap api channelId) else "" := by
    rcases dispatch_attachment api configuration channelId rollbar post att hpostIn hatt with
      ⟨-, h⟩ | ⟨-, h⟩ | ⟨-, -, -, lo, -, h⟩
    · rw [h, velocityAttachment, withPretext_Pretext]
    · rw [h, deployAttachment, withPretext_Pretext]
    · rw [h, itemAttachment, withPretext_Pretext]
  refine ⟨fun hne => ?_, fun heq => ?_, ?_⟩
  · rw [key, if_pos hne]
  · rw [key, if_neg (not_not.mpr heq)]
  · rw [key]
    split_ifs with hne
    · exact hne
    · decide

/-- Witness of C6: a velocity event with an empty subscriber set; the posted
attachment has an empty pretext. -/
theorem C6_pretext_witness :
    isValid (sampleRollbar "item_velocity" none none) = "" ∧
    ∀ post ∈ (handleWebhook (stubApi none none (.ok (sampleRollbar "item_velocity" none none))
          (.error "down") "None" none)
        (sampleConfig "t" "c" "") (sampleRequest [115, 51] "" "")).posts,
      ∀ att ∈ post.attachments, att.Pretext = "" :=
  ⟨by decide, fun post hpostIn att hatt =>
    ((C6_pretext_never_sentinel
      (stubApi none none (.ok (sampleRollbar "item_velocity" none none)) (.error "down")
        "None" none)
      (sampleConfig "t" "c" "") (sampleRequest [115, 51] "" "") "c"
      (sampleRollbar "item_velocity" none none) rfl rfl rfl rfl (by decide)
      post hpostIn att hatt).2.1 rfl)⟩

/-- C7, as stated, fails: the attachment of a deploy event carries the deploy
text as built, in `Text` and inside `Fallback`; with a 600-character revision
both are longer than 500 characters plus the ellipsis and differ from their
truncation. -/
theorem C7_counterexample_deploy_text_not_truncated :
    (handleWebhook (stubApi none none (.ok longDeploy) (.error "down") "None" none)
        (sampleConfig "t" "c" "") (sampleRequest [115, 51] "" "")).posts
      = [attachmentPost (sampleConfig "t" "c" "") "c"
          (deployAttachment (stubApi none none (.ok longDeploy) (.error "down") "None" none)
            "None" longDeploy)] ∧
    503 < (deployAttachment (stubApi none none (.ok longDeploy) (.error "down") "None" none)
        "None" longDeploy).Text.length ∧
    503 < (deployAttachment (stubApi none none (.ok longDeploy) (.error "down") "None" none)
        "None" longDeploy).Fallback.length ∧
    (deployAttachment (stubApi none none (.ok longDeploy) (.error "down") "None" none)
        "None" longDeploy).Text
      ≠ TruncateString (deployAttachment (stubApi none none (.ok longDeploy) (.error "down")
          "None" none) "None" longDeploy).Text postTextMaxLength := by
  have hrev := longDeploy_revision_length
  have htext := deployText_length_ge
    (stubApi none none (.ok longDeploy) (.error "down") "None" none) longDeploy
  have h1 : 503 < (deployAttachment (stubApi none none (.ok longDeploy) (.error "down") "None"
      none) "None" longDeploy).Text.length := by
    rw [deployAttachment_Text]; omega
  refine ⟨rfl, h1, ?_, ?_⟩
  · rw [deployAttachment_Fallback, String.length_append]; omega
  · intro heq
    have hle := TruncateString_length_le (deployAttachment (stubApi none none (.ok longDeploy)
      (.error "down") "None" none) "None" longDeploy).Text postTextMaxLength
    rw [← heq] at hle
    simp only [postTextMaxLength] at hle
    omega

/-- C7, amended: on the item-class path the title ends in
`TruncateString(eventText, 500)` and the fallback ends in its own
`TruncateString(eventText, 500)`, the event text being the fixed replacement
sentence when `eventText()` is empty; on the item_velocity path the title ends
in `TruncateString(item.title, 500)` and the fallback is the title line alone;
the deploy attachment carries the deploy text as built, in its text and in its
fallback. -/
theorem C7_truncation_per_path (api : Collaborators)
    (configuration : Configuration) (r : Request) (channelId : String) (rollbar : Rollbar)
    (hpost : r.Method = "POST") (hauth : r.auth = configuration.Secret)
    (htarget : resolveTarget api configuration r = .ok channelId)
    (hdecode : api.Decode r.Body = .ok rollbar) (hvalid : isValid rollbar = "") :
    ∀ post ∈ (handleWebhook api configuration r).posts, ∀ att ∈ post.attachments,
      (rollbar.EventName = "item_velocity" →
        att.Title = ("#" ++ toString rollbar.Data.Item.Counter ++ " "
            ++ api.eventNameToTitle rollbar ++ ":") ++ "    "
            ++ TruncateString rollbar.Data.Item.Title postTextMaxLength ∧
        att.Fallback = "#" ++ toString rollbar.Data.Item.Counter ++ " "
            ++ api.eventNameToTitle rollbar ++ ":" ∧
        att.Text = "") ∧
      (rollbar.EventName = "deploy" →
        att.Title = api.eventNameToTitle rollbar ∧
        att.Text = deployText api rollbar ∧
        att.Fallback = "[" ++ api.eventNameToTitle rollbar ++ "] "
            ++ rollbar.Data.Deploy.Environment ++ " - " ++ deployText api rollbar) ∧
      (rollbar.EventName ≠ "item_velocity" → rollbar.EventName ≠ "deploy" →
        att.Title = ("#" ++ toString rollbar.Data.Item.Counter ++ " "
            ++ api.eventNameToTitle rollbar ++ ":") ++ "  "
            ++ TruncateString (displayText api rollbar) postTextMaxLength ∧
        att.Fallback = "[" ++ rollbar.Data.Item.Environment ++ "] "
            ++ api.eventNameToTitle rollbar ++ " - "
            ++ TruncateString (displayText api rollbar) postFallbackMaxLength ∧
        att.Text = "") := by
  rw [handleWebhook_validated api configuration r channelId rollbar hpost hauth htarget hdecode
    hvalid]
  intro post hpostIn att hatt
  rcases dispatch_attachment api configuration channelId rollbar post att hpostIn hatt with
    ⟨hv, h⟩ | ⟨hd, h⟩ | ⟨h1, h2, -, lo, -, h⟩
  · refine ⟨fun _ => ?_, fun hd => ?_, fun hne => absurd hv hne⟩
    · rw [h]
      refine ⟨?_, ?_, ?_⟩
      · rw [velocityAttachment, withPretext_Title]
      · rw [velocityAttachment, withPretext_Fallback]
      · rw [velocityAttachment, withPretext_Text]
    · rw [hv] at hd; exact absurd hd (by decide)
  · refine ⟨fun hv => ?_, fun _ => ?_, fun _ hne => absurd hd hne⟩
    · rw [hd] at hv; exact absurd hv (by decide)
    · rw [h]
      refine ⟨?_, deployAttachment_Text _ _ _, deployAttachment_Fallback _ _ _⟩
      rw [deployAttachment, withPretext_Title]
  · refine ⟨fun hv => absurd hv h1, fun hd => absurd hd h2, fun _ _ => ?_⟩
    rw [h]
    refine ⟨?_, ?_, ?_⟩
    · rw [itemAttachment, withPretext_Title]
    · rw [itemAttachment, withPretext_Fallback]
    · rw [itemAttachment, withPretext_Text]

/-- Witness of C7 (amended): a new_item event with a last occurrence. -/
theorem C7_truncation_witness :
    isValid (sampleRollbar "new_item" (some ⟨"python", "abc"⟩) none) = "" ∧
    ∀ post ∈ (handleWebhook
        (stubApi none none (.ok (sampleRollbar "new_item" (some ⟨"python", "abc"⟩) none))
          (.error "down") "None" none)
        (sampleConfig "t" "c" "") (sampleRequest [115, 51] "" "")).posts,
      ∀ att ∈ post.attachments,
        att.Title = "#3 New Error:  " ++ TruncateString "TypeError: demo" 500 ∧
        att.Fallback = "[production] New Error - " ++ TruncateString "TypeError: demo" 500 ∧
        att.Text = "" :=
  ⟨by decide, fun post hpostIn att hatt =>
    (C7_truncation_per_path
      (stubApi none none (.ok (sampleRollbar "new_item" (some ⟨"python", "abc"⟩) none))
        (.error "down") "None" none)
      (sampleConfig "t" "c" "") (sampleRequest [115, 51] "" "") "c"
      (sampleRollbar "new_item" (some ⟨"python", "abc"⟩) none) rfl rfl rfl rfl (by decide)
      post hpostIn att hatt).2.2 (by decide) (by decide)⟩

/-- C8, as stated, fails: the title link of a new_item attachment is the item
link built from the occurrence UUID, not the URL carried in the payload. -/
theorem C8_counterexample_item_title_link :
    (handleWebhook
        (stubApi none none (.ok (sampleRollbar "new_item" (some ⟨"python", "abc"⟩) none))
          (.error "down") "None" none)
        (sampleConfig "t" "c" "") (sampleRequest [115, 51] "" "")).posts
      = [attachmentPost (sampleConfig "t" "c" "") "c"
          (itemAttachment
            (stubApi none none (.ok (sampleRollbar "new_item" (some ⟨"python", "abc"⟩) none))
              (.error "down") "None" none)
            "" "None" (sampleRollbar "new_item" (some ⟨"python", "abc"⟩) none)
            ⟨"python", "abc"⟩)] ∧
    (itemAttachment
        (stubApi none none (.ok (sampleRollbar "new_item" (some ⟨"python", "abc"⟩) none))
          (.error "down") "None" none)
        "" "None" (sampleRollbar "new_item" (some ⟨"python", "abc"⟩) none)
        ⟨"python", "abc"⟩).TitleLink = "https://rollbar.com/item/uuid/?uuid=abc" ∧
    (sampleRollbar "new_item" (some ⟨"python", "abc"⟩) none).Data.URL
      = "https://rollbar.com/demo/items/3/" ∧
    (itemAttachment
        (stubApi none none (.ok (sampleRollbar "new_item" (some ⟨"python", "abc"⟩) none))
          (.error "down") "None" none)
        "" "None" (sampleRollbar "new_item" (some ⟨"python", "abc"⟩) none)
        ⟨"python", "abc"⟩).TitleLink
      ≠ (sampleRollbar "new_item" (some ⟨"python", "abc"⟩) none).Data.URL := by
  refine ⟨rfl, rfl, rfl, by decide⟩

/-- C8, amended: the title link is the payload URL (`data.url`) for
item_velocity, "https://rollbar.com/deploy/<deploy id>/" for deploy, and for
every item-class event the item link
"https://rollbar.com/item/uuid/?uuid=<UUID>" built from the UUID of the
occurrence record. -/
theorem C8_title_link_per_path (api : Collaborators)
    (configuration : Configuration) (r : Request) (channelId : String) (rollbar : Rollbar)
    (hpost : r.Method = "POST") (hauth : r.auth = configuration.Secret)
    (htarget : resolveTarget api configuration r = .ok channelId)
    (hdecode : api.Decode r.Body = .ok rollbar) (hvalid : isValid rollbar = "") :
    (rollbar.EventName = "item_velocity" →
      ∃ att, (handleWebhook api configuration r).posts
          = [attachmentPost configuration channelId att] ∧
        att.TitleLink = rollbar.Data.URL) ∧
    (rollbar.EventName = "deploy" →
      ∃ att, (handleWebhook api configuration r).posts
          = [attachmentPost configuration channelId att] ∧
        att.TitleLink = "https://rollbar.com/deploy/" ++ toString rollbar.Data.Deploy.ID ++ "/") ∧
    (rollbar.EventName ≠ "item_velocity" → rollbar.EventName ≠ "deploy" →
      rollbar.EventName ≠ "test" →
      ∀ lastOccurrence, pickOccurrence rollbar = some lastOccurrence →
        ∃ att, (handleWebhook api configuration r).posts
            = [attachmentPost configuration channelId att] ∧
          att.TitleLink = "https://rollbar.com/item/uuid/?uuid=" ++ lastOccurrence.UUID) := by
  rw [handleWebhook_validated api configuration r channelId rollbar hpost hauth htarget hdecode
    hvalid]
  refine ⟨fun hv => ?_, fun hd => ?_, fun h1 h2 h3 lo hocc => ?_⟩
  · rw [dispatch_velocity _ _ _ _ hv, createPost_posts]
    exact ⟨_, rfl, by rw [velocityAttachment, withPretext_TitleLink]⟩
  · rw [dispatch_deploy _ _ _ _ hd, createPost_posts]
    exact ⟨_, rfl, by rw [deployAttachment, withPretext_TitleLink]⟩
  · rw [dispatch_item _ _ _ _ _ h1 h2 h3 hocc, createPost_posts]
    exact ⟨_, rfl, by rw [itemAttachment, withPretext_TitleLink]⟩

/-- Witness of C8 (amended): a deploy event with deploy id 42. -/
theorem C8_title_link_witness :
    isValid (sampleRollbar "deploy" none none) = "" ∧
    ∃ att, (handleWebhook
          (stubApi none none (.ok (sampleRollbar "deploy" none none)) (.error "down") "None" none)
          (sampleConfig "t" "c" "") (sampleRequest [115, 51] "" "")).posts
        = [attachmentPost (sampleConfig "t" "c" "") "c" att] ∧
      att.TitleLink = "https://rollbar.com/deploy/" ++ toString (42 : Int) ++ "/" :=
  ⟨by decide,
    (C8_title_link_per_path
      (stubApi none none (.ok (sampleRollbar "deploy" none none)) (.error "down") "None" none)
      (sampleConfig "t" "c" "") (sampleRequest [115, 51] "" "") "c"
      (sampleRollbar "deploy" none none) rfl rfl rfl rfl (by decide)).2.1 rfl⟩

/-- C9, as stated, fails: the handler never reads the status code. With an
API key configured and a 500 response whose body is the JSON of a project,
the item_velocity attachment carries the project name and a formatted last
occurrence time. -/
theorem C9_counterexample_status_code_not_read :
    (match (stubApi none none (.ok (sampleRollbar "item_velocity" none none))
        (.ok ⟨500, .ok projectJSON⟩) "None" none).Do
        "https://api.rollbar.com/api/1/project/7" "key" with
      | .ok response => response.StatusCode
      | .error _ => 0) = 500 ∧
    (handleWebhook
        (stubApi none none (.ok (sampleRollbar "item_velocity" none none))
          (.ok ⟨500, .ok projectJSON⟩) "None" none)
        (sampleConfig "t" "c" "key") (sampleRequest [115, 51] "" "")).posts
      = [attachmentPost (sampleConfig "t" "c" "key") "c"
          (velocityAttachment
            (stubApi none none (.ok (sampleRollbar "item_velocity" none none))
              (.ok ⟨500, .ok projectJSON⟩) "None" none)
            "Demo" "UTC" "None" (sampleRollbar "item_velocity" none none))] ∧
    (velocityAttachment
        (stubApi none none (.ok (sampleRollbar "item_velocity" none none))
          (.ok ⟨500, .ok projectJSON⟩) "None" none)
        "Demo" "UTC" "None" (sampleRollbar "item_velocity" none none)).Fields
      = [ ⟨true, "Project", "Demo"⟩,
          ⟨true, "Last Occurrence", "Thu Jan  1 00:00:00 1970"⟩,
          ⟨true, "Environment", "production"⟩,
          ⟨true, "Links", "[Occurrences](https://rollbar.com/demo/items/3/)"⟩ ] := by
  refine ⟨rfl, rfl, rfl⟩

/-- C9, amended: for a request that passed validation, if no API credential is
configured, or the project request cannot be built or sent, or the response
body cannot be read or parsed, then every "Project" field and every
"Last Occurrence" field the handler posts has the value "", and the only
response the handler can write is the 500 of a failed `CreatePost`. The status
code of the project response is not inspected: whenever the body of a response
is read and parsed, the "Project" field carries the parsed name and the
"Last Occurrence" field is the last-occurrence timestamp rendered in the
parsed timezone (empty when that timezone is empty or does not load). -/
theorem C9_lookup_failure_degrades (api : Collaborators)
    (configuration : Configuration) (r : Request) (channelId : String) (rollbar : Rollbar)
    (hpost : r.Method = "POST") (hauth : r.auth = configuration.Secret)
    (htarget : resolveTarget api configuration r = .ok channelId)
    (hdecode : api.Decode r.Body = .ok rollbar) (hvalid : isValid rollbar = "") :
    (LookupFails api configuration rollbar →
      (∀ post ∈ (handleWebhook api configuration r).posts, ∀ att ∈ post.attachments,
        ∀ field ∈ att.Fields,
          field.Title = "Project" ∨ field.Title = "Last Occurrence" → field.Value = "") ∧
      (rollbar.EventName = "item_velocity" →
        ∃ att, (handleWebhook api configuration r).posts
            = [attachmentPost configuration channelId att] ∧
          ⟨true, "Project", ""⟩ ∈ att.Fields ∧ ⟨true, "Last Occurrence", ""⟩ ∈ att.Fields) ∧
      (rollbar.EventName ≠ "item_velocity" → rollbar.EventName ≠ "deploy" →
        rollbar.EventName ≠ "test" → pickOccurrence rollbar ≠ none →
        ∃ att, (handleWebhook api configuration r).posts
            = [attachmentPost configuration channelId att] ∧
          ⟨true, "Project", ""⟩ ∈ att.Fields)) ∧
    (∀ resp, (handleWebhook api configuration r).response = some resp →
      resp.status = 500 ∧ ∃ post, (handleWebhook api configuration r).posts = [post] ∧
        api.CreatePost post = some resp.body) ∧
    (∀ (response : HttpResponse) (responseData : String) (projectData : ProjectData),
      configuration.RollbarApiKey ≠ "" →
      api.NewRequest ("https://api.rollbar.com/api/1/project/"
        ++ toString rollbar.Data.Item.ProjectID) = none →
      api.Do ("https://api.rollbar.com/api/1/project/"
        ++ toString rollbar.Data.Item.ProjectID) configuration.RollbarApiKey = .ok response →
      response.Body = .ok responseData →
      api.UnmarshalProject responseData = .ok projectData →
      (∀ post ∈ (handleWebhook api configuration r).posts, ∀ att ∈ post.attachments,
        ∀ field ∈ att.Fields,
          (field.Title = "Project" → field.Value = projectData.Name) ∧
          (field.Title = "Last Occurrence" →
            field.Value =
              if projectData.Timezone ≠ "" then
                match api.FormatInZone projectData.Timezone
                    rollbar.Data.Item.LastOccurrenceTimestamp with
                | none => ""
                | some formatted => formatted
              else "")) ∧
      (rollbar.EventName = "item_velocity" →
        ∃ att, (handleWebhook api configuration r).posts
            = [attachmentPost configuration channelId att] ∧
          ⟨true, "Project", projectData.Name⟩ ∈ att.Fields ∧
          ⟨true, "Last Occurrence", lastOccurrenceTime api projectData.Timezone rollbar⟩
            ∈ att.Fields) ∧
      (rollbar.EventName ≠ "item_velocity" → rollbar.EventName ≠ "deploy" →
        rollbar.EventName ≠ "test" → pickOccurrence rollbar ≠ none →
        ∃ att, (handleWebhook api configuration r).posts
            = [attachmentPost configuration channelId att] ∧
          ⟨true, "Project", projectData.Name⟩ ∈ att.Fields)) := by
  rw [handleWebhook_validated api configuration r channelId rollbar hpost hauth htarget hdecode
    hvalid]
  refine ⟨fun hfail => ⟨?_, ?_, ?_⟩,
    fun resp h => dispatch_response api configuration channelId rollbar resp h, ?_⟩
  · have hf := fetchProject_of_fails api configuration rollbar hfail
    intro post hpostIn att hatt field hfield htitle
    rcases dispatch_attachment api configuration channelId rollbar post att hpostIn hatt with
      ⟨-, h⟩ | ⟨-, h⟩ | ⟨-, -, -, lo, -, h⟩
    · rw [h, velocityAttachment_Fields, hf, lastOccurrenceTime_empty] at hfield
      simp only [List.mem_cons, List.mem_singleton, List.not_mem_nil, or_false] at hfield
      rcases hfield with rfl | rfl | rfl | rfl
      · rfl
      · rfl
      · simp at htitle
      · simp at htitle
    · rw [h, deployAttachment_Fields] at hfield
      simp at hfield
    · rw [h, itemAttachment_Fields, hf] at hfield
      simp only [List.mem_cons, List.mem_singleton, List.not_mem_nil, or_false] at hfield
      rcases hfield with rfl | rfl | rfl | rfl
      · rfl
      · simp at htitle
      · simp at htitle
      · simp at htitle
  · intro hv
    have hf := fetchProject_of_fails api configuration rollbar hfail
    rw [dispatch_velocity _ _ _ _ hv, createPost_posts]
    refine ⟨_, rfl, ?_, ?_⟩
    · rw [velocityAttachment_Fields, hf]; simp
    · rw [velocityAttachment_Fields, hf, lastOccurrenceTime_empty]; simp
  · intro h1 h2 h3 hocc
    have hf := fetchProject_of_fails api configuration rollbar hfail
    cases hp : pickOccurrence rollbar with
    | none => exact absurd hp hocc
    | some lo =>
      rw [dispatch_item _ _ _ _ _ h1 h2 h3 hp, createPost_posts]
      refine ⟨_, rfl, ?_⟩
      rw [itemAttachment_Fields, hf]; simp
  · intro response responseData projectData hkey hreq hdo hbody hparse
    have hf := fetchProject_of_parsed api configuration rollbar response responseData
      projectData hkey hreq hdo hbody hparse
    refine ⟨?_, ?_, ?_⟩
    · intro post hpostIn att hatt field hfield
      rcases dispatch_attachment api configuration channelId rollbar post att hpostIn hatt with
        ⟨-, h⟩ | ⟨-, h⟩ | ⟨-, -, -, lo, -, h⟩
      · rw [h, velocityAttachment_Fields, hf] at hfield
        simp only [List.mem_cons, List.mem_singleton, List.not_mem_nil, or_false] at hfield
        rcases hfield with rfl | rfl | rfl | rfl
        · exact ⟨fun _ => rfl, fun htitle => by simp at htitle⟩
        · exact ⟨fun htitle => by simp at htitle, fun _ => rfl⟩
        · exact ⟨fun htitle => by simp at htitle, fun htitle => by simp at htitle⟩
        · exact ⟨fun htitle => by simp at htitle, fun htitle => by simp at htitle⟩
      · rw [h, deployAttachment_Fields] at hfield
        simp at hfield
      · rw [h, itemAttachment_Fields, hf] at hfield
        simp only [List.mem_cons, List.mem_singleton, List.not_mem_nil, or_false] at hfield
        rcases hfield with rfl | rfl | rfl | rfl
        · exact ⟨fun _ => rfl, fun htitle => by simp at htitle⟩
        · exact ⟨fun htitle => by simp at htitle, fun htitle => by simp at htitle⟩
        · exact ⟨fun htitle => by simp at htitle, fun htitle => by simp at htitle⟩
        · exact ⟨fun htitle => by simp at htitle, fun htitle => by simp at htitle⟩
    · intro hv
      rw [dispatch_velocity _ _ _ _ hv, createPost_posts]
      refine ⟨_, rfl, ?_, ?_⟩
      · rw [velocityAttachment_Fields, hf]; simp
      · rw [velocityAttachment_Fields, hf]; simp
    · intro h1 h2 h3 hocc
      cases hp : pickOccurrence rollbar with
      | none => exact absurd hp hocc
      | some lo =>
        rw [dispatch_item _ _ _ _ _ h1 h2 h3 hp, createPost_posts]
        refine ⟨_, rfl, ?_⟩
        rw [itemAttachment_Fields, hf]; simp

/-- Witness of C9 (amended): an item_velocity event with an API key configured.
When the project request cannot be sent both fields are empty; when a 500
response carries the JSON of a project both fields carry its data. -/
theorem C9_lookup_failure_witness :
    (isValid (sampleRollbar "item_velocity" none none) = "" ∧
      LookupFails (stubApi none none (.ok (sampleRollbar "item_velocity" none none))
        (.error "down") "None" none) (sampleConfig "t" "c" "key")
        (sampleRollbar "item_velocity" none none) ∧
      ∃ att, (handleWebhook (stubApi none none (.ok (sampleRollbar "item_velocity" none none))
            (.error "down") "None" none)
          (sampleConfig "t" "c" "key") (sampleRequest [115, 51] "" "")).posts
          = [attachmentPost (sampleConfig "t" "c" "key") "c" att] ∧
        ⟨true, "Project", ""⟩ ∈ att.Fields ∧ ⟨true, "Last Occurrence", ""⟩ ∈ att.Fields) ∧
    ∃ att, (handleWebhook (stubApi none none (.ok (sampleRollbar "item_velocity" none none))
          (.ok ⟨500, .ok projectJSON⟩) "None" none)
        (sampleConfig "t" "c" "key") (sampleRequest [115, 51] "" "")).posts
        = [attachmentPost (sampleConfig "t" "c" "key") "c" att] ∧
      ⟨true, "Project", "Demo"⟩ ∈ att.Fields ∧
      ⟨true, "Last Occurrence", "Thu Jan  1 00:00:00 1970"⟩ ∈ att.Fields :=
  ⟨⟨by decide, Or.inr (Or.inr (Or.inl ⟨"down", rfl⟩)),
    ((C9_lookup_failure_degrades
      (stubApi none none (.ok (sampleRollbar "item_velocity" none none)) (.error "down")
        "None" none)
      (sampleConfig "t" "c" "key") (sampleRequest [115, 51] "" "") "c"
      (sampleRollbar "item_velocity" none none) rfl rfl rfl rfl (by decide)).1
        (Or.inr (Or.inr (Or.inl ⟨"down", rfl⟩)))).2.1 rfl⟩,
   ((C9_lookup_failure_degrades
      (stubApi none none (.ok (sampleRollbar "item_velocity" none none))
        (.ok ⟨500, .ok projectJSON⟩) "None" none)
      (sampleConfig "t" "c" "key") (sampleRequest [115, 51] "" "") "c"
      (sampleRollbar "item_velocity" none none) rfl rfl rfl rfl (by decide)).2.2
        ⟨500, .ok projectJSON⟩ projectJSON ⟨"Demo", "UTC"⟩ (by decide) rfl rfl rfl rfl).2.1 rfl⟩

/-- C10: on the item-class path the language field and the UUID of the item
and occurrence links come from `item.last_occurrence` when it is present and
from the standalone `occurrence` otherwise; when at least one is present the
post is built from a present record, and when both are absent the handler
panics on the nil read and no post is created and nothing is written. -/
theorem C10_occurrence_record_read (api : Collaborators)
    (configuration : Configuration) (r : Request) (channelId : String) (rollbar : Rollbar)
    (hpost : r.Method = "POST") (hauth : r.auth = configuration.Secret)
    (htarget : resolveTarget api configuration r = .ok channelId)
    (hdecode : api.Decode r.Body = .ok rollbar) (hvalid : isValid rollbar = "")
    (h1 : rollbar.EventName ≠ "item_velocity") (h2 : rollbar.EventName ≠ "deploy")
    (h3 : rollbar.EventName ≠ "test") :
    (∀ record,
      (rollbar.Data.Item.LastOccurrence = some record ∨
        (rollbar.Data.Item.LastOccurrence = none ∧ rollbar.Data.Occurrence = some record)) →
      (handleWebhook api configuration r).panicked = false ∧
      ∃ att, (handleWebhook api configuration r).posts
          = [attachmentPost configuration channelId att] ∧
        ⟨true, "Language", record.Language⟩ ∈ att.Fields ∧
        ⟨true, "Links", "[Item](" ++ ("https://rollbar.com/item/uuid/?uuid=" ++ record.UUID)
          ++ ") | [Occurrence]("
          ++ ("https://rollbar.com/occurrence/uuid/?uuid=" ++ record.UUID) ++ ")"⟩
          ∈ att.Fields ∧
        att.TitleLink = "https://rollbar.com/item/uuid/?uuid=" ++ record.UUID) ∧
    (rollbar.Data.Item.LastOccurrence = none → rollbar.Data.Occurrence = none →
      (handleWebhook api configuration r).panicked = true ∧
      (handleWebhook api configuration r).posts = [] ∧
      (handleWebhook api configuration r).response = none) := by
  rw [handleWebhook_validated api configuration r channelId rollbar hpost hauth htarget hdecode
    hvalid]
  refine ⟨fun record hrec => ?_, fun hl ho => ?_⟩
  · have hocc : pickOccurrence rollbar = some record := by
      unfold pickOccurrence
      rcases hrec with h | ⟨hl, ho⟩
      · rw [h]
      · rw [hl, ho]
    rw [dispatch_item _ _ _ _ _ h1 h2 h3 hocc, createPost_posts, createPost_panicked]
    refine ⟨rfl, _, rfl, ?_, ?_, ?_⟩
    · rw [itemAttachment_Fields]; simp
    · rw [itemAttachment_Fields]; simp
    · rw [itemAttachment, withPretext_TitleLink]
  · have hocc : pickOccurrence rollbar = none := by
      unfold pickOccurrence
      rw [hl, ho]
    rw [dispatch_item_nil _ _ _ _ h1 h2 h3 hocc]
    exact ⟨rfl, rfl, rfl⟩

/-- Witness of C10: an occurrence event whose item has no last occurrence; the
fields come from the standalone record. -/
theorem C10_occurrence_record_witness :
    isValid (sampleRollbar "occurrence" none (some ⟨"ruby", "u-1"⟩)) = "" ∧
    (handleWebhook
        (stubApi none none (.ok (sampleRollbar "occurrence" none (some ⟨"ruby", "u-1"⟩)))
          (.error "down") "None" none)
        (sampleConfig "t" "c" "") (sampleRequest [115, 51] "" "")).panicked = false ∧
    ∃ att, (handleWebhook
          (stubApi none none (.ok (sampleRollbar "occurrence" none (some ⟨"ruby", "u-1"⟩)))
            (.error "down") "None" none)
          (sampleConfig "t" "c" "") (sampleRequest [115, 51] "" "")).posts
        = [attachmentPost (sampleConfig "t" "c" "") "c" att] ∧
      ⟨true, "Language", "ruby"⟩ ∈ att.Fields ∧
      ⟨true, "Links", "[Item](" ++ ("https://rollbar.com/item/uuid/?uuid=" ++ "u-1")
        ++ ") | [Occurrence]("
        ++ ("https://rollbar.com/occurrence/uuid/?uuid=" ++ "u-1") ++ ")"⟩ ∈ att.Fields ∧
      att.TitleLink = "https://rollbar.com/item/uuid/?uuid=" ++ "u-1" :=
  ⟨by decide,
    (C10_occurrence_record_read
      (stubApi none none (.ok (sampleRollbar "occurrence" none (some ⟨"ruby", "u-1"⟩)))
        (.error "down") "None" none)
      (sampleConfig "t" "c" "") (sampleRequest [115, 51] "" "") "c"
      (sampleRollbar "occurrence" none (some ⟨"ruby", "u-1"⟩)) rfl rfl rfl rfl (by decide)
      (by decide) (by decide) (by decide)).1 ⟨"ruby", "u-1"⟩ (Or.inr ⟨rfl, rfl⟩)⟩

end Matterbar
